import Mathlib

/-!
# Verification of the agent-governance-gate decision core

Shallow embedding of `src/governance_gate` (core types, decision record,
pipeline orchestrator, policy schema validator / evaluator fragments, and the
concrete gates), together with theorems settling the behavioural claims about
the pipeline precedence rule, the decision invariants, the policy validator,
the gate threshold boundaries and the policy-override mutation semantics.

Python dynamic values are embedded as the inductive type `Val` (JSON/YAML-like
data: `None`, `bool`, numbers, strings, lists, string-keyed dicts).  Python
dicts are insertion-ordered association lists.  Code paths that raise a Python
exception (`TypeError`, `KeyError`, ...) are embedded in `Except String`.
The non-deterministic trace id / timestamp (`uuid.uuid4()`,
`datetime.now(...)`) are modelled as explicitly injected fresh values.
-/

/-- Embedding of a dynamic Python/JSON value as it occurs in intents,
evidence, policies and decisions: `null`, booleans, numbers (`int` and
`float` are merged into `ℚ`; where the int/float distinction matters it is
recovered through the denominator), strings, lists and string-keyed
insertion-ordered dicts. -/
inductive Val where
  | null : Val
  | bool : Bool → Val
  | num : ℚ → Val
  | str : String → Val
  | list : List Val → Val
  | dict : List (String × Val) → Val
deriving Inhabited

mutual

/-- Decidable equality for the nested inductive `Val` (hand-rolled: the
deriving handler does not support nested occurrences). -/
def Val.decEq : (a b : Val) → Decidable (a = b)
  | .null, .null => isTrue rfl
  | .bool a, .bool b =>
    if h : a = b then isTrue (by rw [h])
    else isFalse (by intro hh; injection hh; contradiction)
  | .num a, .num b =>
    if h : a = b then isTrue (by rw [h])
    else isFalse (by intro hh; injection hh; contradiction)
  | .str a, .str b =>
    if h : a = b then isTrue (by rw [h])
    else isFalse (by intro hh; injection hh; contradiction)
  | .list xs, .list ys =>
    match Val.decEqList xs ys with
    | isTrue h => isTrue (by rw [h])
    | isFalse h => isFalse (by intro hh; injection hh; contradiction)
  | .dict xs, .dict ys =>
    match Val.decEqDict xs ys with
    | isTrue h => isTrue (by rw [h])
    | isFalse h => isFalse (by intro hh; injection hh; contradiction)
  | .null, .bool _ | .null, .num _ | .null, .str _ | .null, .list _ | .null, .dict _
  | .bool _, .null | .bool _, .num _ | .bool _, .str _ | .bool _, .list _ | .bool _, .dict _
  | .num _, .null | .num _, .bool _ | .num _, .str _ | .num _, .list _ | .num _, .dict _
  | .str _, .null | .str _, .bool _ | .str _, .num _ | .str _, .list _ | .str _, .dict _
  | .list _, .null | .list _, .bool _ | .list _, .num _ | .list _, .str _ | .list _, .dict _
  | .dict _, .null | .dict _, .bool _ | .dict _, .num _ | .dict _, .str _ | .dict _, .list _ =>
    isFalse (by intro h; cases h)

/-- Decidable equality for lists of `Val`. -/
def Val.decEqList : (xs ys : List Val) → Decidable (xs = ys)
  | [], [] => isTrue rfl
  | [], _ :: _ => isFalse (by intro h; cases h)
  | _ :: _, [] => isFalse (by intro h; cases h)
  | x :: xs, y :: ys =>
    match Val.decEq x y with
    | isFalse h1 => isFalse (by intro h; injection h; contradiction)
    | isTrue h1 =>
      match Val.decEqList xs ys with
      | isTrue h2 => isTrue (by rw [h1, h2])
      | isFalse h2 => isFalse (by intro h; injection h; contradiction)

/-- Decidable equality for string-keyed association lists of `Val`. -/
def Val.decEqDict : (xs ys : List (String × Val)) → Decidable (xs = ys)
  | [], [] => isTrue rfl
  | [], _ :: _ => isFalse (by intro h; cases h)
  | _ :: _, [] => isFalse (by intro h; cases h)
  | (k1, v1) :: xs, (k2, v2) :: ys =>
    if h1 : k1 = k2 then
      match Val.decEq v1 v2 with
      | isFalse h2 => isFalse (by intro h; injection h with hp ht; injection hp; contradiction)
      | isTrue h2 =>
        match Val.decEqDict xs ys with
        | isTrue h3 => isTrue (by rw [h1, h2, h3])
        | isFalse h3 => isFalse (by intro h; injection h; contradiction)
    else isFalse (by intro h; injection h with hp ht; injection hp; contradiction)

end

instance : DecidableEq Val := Val.decEq

namespace Val

/-- First-match lookup in an insertion-ordered dict (Python `d[k]` / `k in d`). -/
def alookup (es : List (String × Val)) (k : String) : Option Val :=
  match es with
  | [] => none
  | (k', v) :: rest => if k' = k then some v else alookup rest k

/-- Python truthiness: `None`, `False`, `0`, `""`, `[]`, `{}` are falsy. -/
def truthy : Val → Bool
  | .null => false
  | .bool b => b
  | .num q => q ≠ 0
  | .str s => s ≠ ""
  | .list xs => !xs.isEmpty
  | .dict es => !es.isEmpty

/-- Numeric view used by Python arithmetic comparisons: `bool` is a subtype of
`int` in Python (`True == 1`), so booleans coerce to numbers. -/
def toNum? : Val → Option ℚ
  | .bool b => some (if b then 1 else 0)
  | .num q => some q
  | _ => none

/-- `isinstance(v, (int, float))` (booleans included, as in Python). -/
def isPyNumber : Val → Bool
  | .bool _ => true
  | .num _ => true
  | _ => false

/-- `str(v)` as used in f-string interpolation.  Container reprs are
abbreviated: no claim inspects the rendering of a list or dict. -/
def pyStr : Val → String
  | .null => "None"
  | .bool b => if b then "True" else "False"
  | .num q => if q.den = 1 then toString q.num else toString q
  | .str s => s
  | .list _ => "[...]"
  | .dict _ => "{...}"

end Val

/-- Python `a < b` on dynamic values: numbers (and booleans) compare
numerically, strings compare lexicographically, anything else raises
`TypeError`. -/
def pyLt (a b : Val) : Except String Bool :=
  match a.toNum?, b.toNum? with
  | some x, some y => pure (decide (x < y))
  | _, _ =>
    match a, b with
    | .str s, .str t => pure (decide (s < t))
    | _, _ => Except.error "TypeError: unsupported comparison"

/-- Python `a <= b` on dynamic values. -/
def pyLe (a b : Val) : Except String Bool :=
  match a.toNum?, b.toNum? with
  | some x, some y => pure (decide (x ≤ y))
  | _, _ =>
    match a, b with
    | .str s, .str t => pure (decide (s ≤ t))
    | _, _ => Except.error "TypeError: unsupported comparison"

/-- Character-list sublist test (contiguous). -/
def charSublist (needle : List Char) : List Char → Bool
  | [] => needle.isEmpty
  | c :: rest => needle.isPrefixOf (c :: rest) || charSublist needle rest

/-- Substring containment, Python `needle in haystack` for strings. -/
def strContains (haystack needle : String) : Bool :=
  charSublist needle.data haystack.data

/-- Python `s.strip()` (char-list implementation: the byte-position core
string functions do not reduce in the kernel). -/
def pyStrip (s : String) : String :=
  String.mk (((s.data.dropWhile Char.isWhitespace).reverse.dropWhile Char.isWhitespace).reverse)

/-- Python `s.startswith(pre)`. -/
def pyStartsWith (s pre : String) : Bool :=
  pre.data.isPrefixOf s.data

/-- Python `s.lower()` (ASCII, as the source's keyword sets are ASCII). -/
def pyLower (s : String) : String :=
  String.mk (s.data.map Char.toLower)

/-- Python `s.upper()` (ASCII). -/
def pyUpper (s : String) : String :=
  String.mk (s.data.map Char.toUpper)

/-- Python `s.replace(a, b)` for single-character patterns (the source only
replaces the one-character substring `" "`). -/
def pyReplaceChar (s : String) (a b : Char) : String :=
  String.mk (s.data.map (fun ch => if ch = a then b else ch))

/-- Split on a separator character, keeping empty pieces
(Python `s.split(".")`). -/
def splitOnChar (sep : Char) : List Char → List Char → List String
  | [], acc => [String.mk acc.reverse]
  | c :: rest, acc =>
    if c = sep then String.mk acc.reverse :: splitOnChar sep rest []
    else splitOnChar sep rest (c :: acc)

/-- Split on whitespace runs, dropping empty pieces (Python `s.split()`). -/
def wsSplit : List Char → List Char → List String
  | [], acc => if acc.isEmpty then [] else [String.mk acc.reverse]
  | c :: rest, acc =>
    if c.isWhitespace then
      (if acc.isEmpty then wsSplit rest [] else String.mk acc.reverse :: wsSplit rest [])
    else wsSplit rest (c :: acc)

/-- `f"{q:.2f}"` for the rationals that reach format specifiers.  Python
rounds the underlying binary float half-to-even; exact decimal ties are not
significant for any property proved here, so round-half-up is used. -/
def fmt2 (q : ℚ) : String :=
  let n : Int := ⌊q * 100 + 1/2⌋
  let sign := if n < 0 then "-" else ""
  let m := n.natAbs
  sign ++ toString (m / 100) ++ "." ++ (if m % 100 < 10 then "0" else "") ++ toString (m % 100)

/-- `f"{v:.2f}"`: numbers (and booleans) format, everything else raises. -/
def fmtVal2 (v : Val) : Except String String :=
  match v.toNum? with
  | some q => pure (fmt2 q)
  | none => Except.error "ValueError: unsupported format"

/-! ## `core/types.py` -/

/-- `DecisionAction`: closed four-valued enumeration. -/
inductive DecisionAction where
  | ALLOW
  | RESTRICT
  | ESCALATE
  | STOP
deriving DecidableEq, Repr, Inhabited

namespace DecisionAction

/-- `DecisionAction.value` (the `str` payload of the enum). -/
def value : DecisionAction → String
  | .ALLOW => "ALLOW"
  | .RESTRICT => "RESTRICT"
  | .ESCALATE => "ESCALATE"
  | .STOP => "STOP"

/-- `DecisionAction.precedence`: severity rank, higher = more severe. -/
def precedence : DecisionAction → Nat
  | .ALLOW => 0
  | .RESTRICT => 1
  | .ESCALATE => 2
  | .STOP => 3

/-- `DecisionAction.dominates`: strictly greater precedence. -/
def dominates (a other : DecisionAction) : Bool :=
  a.precedence > other.precedence

/-- `DecisionAction(str)` as called by `Decision.from_dict`; an unknown value
raises `ValueError`. -/
def fromValue : Val → Except String DecisionAction
  | .str "ALLOW" => pure .ALLOW
  | .str "RESTRICT" => pure .RESTRICT
  | .str "ESCALATE" => pure .ESCALATE
  | .str "STOP" => pure .STOP
  | _ => Except.error "ValueError: not a valid DecisionAction"

end DecisionAction

/-- `Intent`: recognized user intent. -/
structure Intent where
  name : String
  confidence : ℚ := 1
  parameters : List (String × Val) := []
deriving DecidableEq

/-- `Context`: execution context. -/
structure Context where
  user_id : Option String := none
  channel : Option String := none
  session_id : Option String := none
  metadata : List (String × Val) := []
deriving DecidableEq

/-- `Evidence`: three namespaces plus metadata. -/
structure Evidence where
  facts : List (String × Val) := []
  rag : List (String × Val) := []
  topic : List (String × Val) := []
  metadata : List (String × Val) := []
deriving DecidableEq

namespace Evidence

/-- The evidence object seen as a nested dynamic value, for dotted-path
traversal (the Python loop reaches the four namespaces through
`getattr`; attributes other than the four data fields are not data and are
not modelled). -/
def toVal (e : Evidence) : Val :=
  .dict [("facts", .dict e.facts), ("rag", .dict e.rag),
         ("topic", .dict e.topic), ("metadata", .dict e.metadata)]

/-- Dotted-path traversal core: walk the remaining path parts through nested
dicts, falling back to the default at any missing segment or non-dict node. -/
def getPath (v : Val) (parts : List String) (default : Val) : Val :=
  match parts with
  | [] => v
  | p :: ps =>
    match v with
    | .dict es =>
      match Val.alookup es p with
      | some w => getPath w ps default
      | none => default
    | _ => default

/-- `Evidence.get(path, default)`: dotted-path lookup with default fallback. -/
def get (e : Evidence) (path : String) (default : Val) : Val :=
  getPath e.toVal (splitOnChar '.' path.data []) default

end Evidence

/-! ## `core/decision.py`

Insertion-ordered dicts are association lists; `dictInsert` is Python
`d[k] = v` (update in place keeps the original position, otherwise append).
`generate_trace_id()` / `datetime.now(...)` are modelled as injected fresh
strings.  Where Python would silently store an ill-typed payload in a
statically-annotated field (e.g. a number in `rationale`), the embedding
raises instead; no theorem exercises such payloads. -/

/-- Python `d[k] = v` on an insertion-ordered dict. -/
def dictInsert {α : Type} (es : List (String × α)) (k : String) (v : α) : List (String × α) :=
  match es with
  | [] => [(k, v)]
  | (k', v') :: rest => if k' = k then (k, v) :: rest else (k', v') :: dictInsert rest k v

/-- `generate_decision_code(action, primary_gate, reason_type)`. -/
def generate_decision_code (action : DecisionAction) (primary_gate reason_type : String) : String :=
  let gate_prefix :=
    if primary_gate = "fact_verifiability" then "FACTS"
    else if primary_gate = "uncertainty" then "UNCERTAINTY"
    else if primary_gate = "responsibility" then "RESPONSIBILITY"
    else if primary_gate = "safety" then "SAFETY"
    else "GOVERNANCE"
  gate_prefix ++ "_" ++ pyUpper action.value ++ "_" ++ pyReplaceChar (pyUpper reason_type) ' ' '_'

/-- `GateDecision`: per-gate contribution with traceability. -/
structure GateDecision where
  gate_name : String
  suggested_action : Option String
  rationale : String
  config_used : Option Val := none
  input_summary : Option Val := none
deriving DecidableEq

/-- `GateDecision.to_dict`. -/
def GateDecision.to_dict (gd : GateDecision) : Val :=
  .dict [("gate_name", .str gd.gate_name),
         ("suggested_action", match gd.suggested_action with | some s => .str s | none => .null),
         ("rationale", .str gd.rationale),
         ("config_used", (gd.config_used).getD .null),
         ("input_summary", (gd.input_summary).getD .null)]

/-- `Decision`: the aggregate decision record. -/
structure Decision where
  action : DecisionAction
  rationale : String
  evidence_summary : Val
  trace_id : String
  required_steps : List String := []
  timestamp : String
  gate_contributions : List (String × String) := []
  gate_decisions : List (String × GateDecision) := []
  policy_version : Val := .null
  policy_name : Val := .null
  decision_code : Option String := none
  final_gate : Option String := none
deriving DecidableEq

namespace Decision

/-- `Decision.add_gate_decision`. -/
def add_gate_decision (d : Decision) (gate_name : String) (suggested_action : Option String)
    (rationale : String) (config_used : Option Val := none)
    (input_summary : Option Val := none) : Decision :=
  { d with
    gate_decisions := dictInsert d.gate_decisions gate_name
      { gate_name := gate_name, suggested_action := suggested_action, rationale := rationale,
        config_used := config_used, input_summary := input_summary },
    gate_contributions := dictInsert d.gate_contributions gate_name rationale }

/-- `Decision.add_annotation`. -/
def add_annotation (d : Decision) (gate_name rationale : String) : Decision :=
  d.add_gate_decision gate_name none rationale

/-- `Decision.override`. -/
def override (d : Decision) (new_action : DecisionAction) (gate_name rationale : String)
    (config_used : Option Val := none) (input_summary : Option Val := none) : Decision :=
  let d := { d with action := new_action }
  let d := d.add_gate_decision gate_name (some new_action.value) rationale config_used input_summary
  { d with rationale := rationale }

/-- `Decision.set_decision_code`. -/
def set_decision_code (d : Decision) (code : String) : Decision :=
  { d with decision_code := some code }

/-- `Decision.set_policy_info`. -/
def set_policy_info (d : Decision) (policy_name policy_version : Val) : Decision :=
  { d with policy_name := policy_name, policy_version := policy_version }

/-- `Decision.to_dict`. -/
def to_dict (d : Decision) : Val :=
  .dict [("action", .str d.action.value),
         ("rationale", .str d.rationale),
         ("evidence_summary", d.evidence_summary),
         ("trace_id", .str d.trace_id),
         ("required_steps", .list (d.required_steps.map Val.str)),
         ("timestamp", .str d.timestamp),
         ("gate_contributions", .dict (d.gate_contributions.map (fun kv => (kv.1, Val.str kv.2)))),
         ("gate_decisions", .dict (d.gate_decisions.map (fun kv => (kv.1, kv.2.to_dict)))),
         ("policy_version", d.policy_version),
         ("policy_name", d.policy_name),
         ("decision_code", match d.decision_code with | some s => .str s | none => .null),
         ("final_gate", match d.final_gate with | some s => .str s | none => .null)]

/-- Read a string field, raising on a non-string payload. -/
def parseStr (v : Val) : Except String String :=
  match v with
  | .str s => pure s
  | _ => Except.error "TypeError: expected str"

/-- `data.get(key)` for the `Optional[str]` fields: a string payload is kept,
anything else (including absence and `null`) becomes `None`. -/
def parseOptStr (v : Option Val) : Option String :=
  match v with
  | some (.str s) => some s
  | _ => none

/-- `data.get(key)` for the `Optional[dict]` traceability fields: absence and
`null` become `None`, any other payload is kept. -/
def parseOptVal (v : Option Val) : Option Val :=
  match v with
  | some .null => none
  | some v => some v
  | none => none

/-- Parse the elements of a list of strings. -/
def parseStrs : List Val → Except String (List String)
  | [] => pure []
  | v :: rest => do
    let s ← parseStr v
    let t ← parseStrs rest
    pure (s :: t)

/-- Parse a list of strings (`required_steps`). -/
def parseStrList (v : Val) : Except String (List String) :=
  match v with
  | .list xs => parseStrs xs
  | _ => Except.error "TypeError: expected list"

/-- Parse the entries of a string-to-string dict. -/
def parseStrPairs : List (String × Val) → Except String (List (String × String))
  | [] => pure []
  | (k, v) :: rest => do
    let s ← parseStr v
    let t ← parseStrPairs rest
    pure ((k, s) :: t)

/-- Parse a string-to-string dict (`gate_contributions`). -/
def parseStrDict (v : Val) : Except String (List (String × String)) :=
  match v with
  | .dict es => parseStrPairs es
  | _ => Except.error "TypeError: expected dict"

/-- Restore one `GateDecision` from its dict payload (the loop body of
`Decision.from_dict`). -/
def parseGateDecision (v : Val) : Except String GateDecision :=
  match v with
  | .dict ges => do
    let gn ← match Val.alookup ges "gate_name" with
      | some w => parseStr w
      | none => Except.error "KeyError: gate_name"
    let ra ← match Val.alookup ges "rationale" with
      | some w => parseStr w
      | none => Except.error "KeyError: rationale"
    pure { gate_name := gn,
           suggested_action := parseOptStr (Val.alookup ges "suggested_action"),
           rationale := ra,
           config_used := parseOptVal (Val.alookup ges "config_used"),
           input_summary := parseOptVal (Val.alookup ges "input_summary") }
  | _ => Except.error "TypeError: expected dict"

/-- Parse the entries of the `gate_decisions` payload. -/
def parseGateDecisions : List (String × Val) → Except String (List (String × GateDecision))
  | [] => pure []
  | (k, v) :: rest => do
    let gd ← parseGateDecision v
    let t ← parseGateDecisions rest
    pure ((k, gd) :: t)

/-- `Decision.from_dict(data)`.  The `default_factory` fallbacks for a missing
`trace_id` / `timestamp` are the injected fresh values. -/
def from_dict (data : Val) (freshTrace freshTs : String) : Except String Decision :=
  match data with
  | .dict es => do
    let action ← match Val.alookup es "action" with
      | some w => DecisionAction.fromValue w
      | none => Except.error "KeyError: action"
    let rationale ← match Val.alookup es "rationale" with
      | some w => parseStr w
      | none => Except.error "KeyError: rationale"
    let evidence_summary := (Val.alookup es "evidence_summary").getD (.dict [])
    let trace_id ← match Val.alookup es "trace_id" with
      | some w => parseStr w
      | none => pure freshTrace
    let required_steps ← match Val.alookup es "required_steps" with
      | some w => parseStrList w
      | none => pure []
    let timestamp ← match Val.alookup es "timestamp" with
      | some w => parseStr w
      | none => pure freshTs
    let gate_contributions ← match Val.alookup es "gate_contributions" with
      | some w => parseStrDict w
      | none => pure []
    let gate_decisions ← match Val.alookup es "gate_decisions" with
      | some (.dict gds) => parseGateDecisions gds
      | some _ => Except.error "TypeError: expected dict"
      | none => pure []
    pure { action := action, rationale := rationale, evidence_summary := evidence_summary,
           trace_id := trace_id, required_steps := required_steps, timestamp := timestamp,
           gate_contributions := gate_contributions, gate_decisions := gate_decisions,
           policy_version := (Val.alookup es "policy_version").getD .null,
           policy_name := (Val.alookup es "policy_name").getD .null,
           decision_code := parseOptStr (Val.alookup es "decision_code"),
           final_gate := parseOptStr (Val.alookup es "final_gate") }
  | _ => Except.error "TypeError: expected dict"

end Decision

/-! ## Serialization roundtrip (spec §8, "Round trip") -/

theorem DecisionAction.fromValue_value (a : DecisionAction) :
    DecisionAction.fromValue (.str a.value) = Except.ok a := by
  cases a <;> rfl

theorem Decision.parseStrs_roundtrip (xs : List String) :
    Decision.parseStrs (xs.map Val.str) = Except.ok xs := by
  induction xs with
  | nil => rfl
  | cons x rest ih =>
    simp [Decision.parseStrs, Decision.parseStr, ih, Bind.bind, Except.bind, Pure.pure, Except.pure]

theorem Decision.parseStrPairs_roundtrip (es : List (String × String)) :
    Decision.parseStrPairs (es.map (fun kv => (kv.1, Val.str kv.2))) = Except.ok es := by
  induction es with
  | nil => rfl
  | cons kv rest ih =>
    simp [Decision.parseStrPairs, Decision.parseStr, ih, Bind.bind, Except.bind, Pure.pure,
      Except.pure]

theorem Decision.parseGateDecision_ok (gd : GateDecision) :
    ∃ g, Decision.parseGateDecision gd.to_dict = Except.ok g :=
  ⟨_, rfl⟩

theorem Decision.parseGateDecisions_ok (l : List (String × GateDecision)) :
    ∃ r, Decision.parseGateDecisions (l.map (fun kv => (kv.1, kv.2.to_dict))) = Except.ok r := by
  induction l with
  | nil => exact ⟨[], rfl⟩
  | cons kv rest ih =>
    obtain ⟨g, hg⟩ := Decision.parseGateDecision_ok kv.2
    obtain ⟨t, ht⟩ := ih
    exact ⟨(kv.1, g) :: t, by
      simp [Decision.parseGateDecisions, hg, ht, Bind.bind, Except.bind, Pure.pure, Except.pure]⟩

/-- C7: serializing a `Decision` with `to_dict` and reconstructing it with
`from_dict` yields a Decision with the same action, rationale, trace_id,
evidence_summary and gate_contributions as the original. -/
theorem decision_roundtrip_preserves_core_fields (d : Decision) (ft fts : String) :
    (Decision.from_dict d.to_dict ft fts).map Decision.action = Except.ok d.action ∧
    (Decision.from_dict d.to_dict ft fts).map Decision.rationale = Except.ok d.rationale ∧
    (Decision.from_dict d.to_dict ft fts).map Decision.trace_id = Except.ok d.trace_id ∧
    (Decision.from_dict d.to_dict ft fts).map Decision.evidence_summary
      = Except.ok d.evidence_summary ∧
    (Decision.from_dict d.to_dict ft fts).map Decision.gate_contributions
      = Except.ok d.gate_contributions := by
  obtain ⟨gds, hGD⟩ := Decision.parseGateDecisions_ok d.gate_decisions
  refine ⟨?_, ?_, ?_, ?_, ?_⟩ <;>
    simp [Decision.from_dict, Decision.to_dict, Val.alookup, Decision.parseStr,
      Decision.parseStrList, Decision.parseStrDict, Decision.parseStrs_roundtrip,
      Decision.parseStrPairs_roundtrip, DecisionAction.fromValue_value, hGD,
      Bind.bind, Except.bind, Pure.pure, Except.pure, Except.map]

/-! ## `policy/evaluator.py` — the interface the pipeline and gates consume -/

/-- `PolicyEvaluator` (the rule-matching machinery is embedded separately;
the pipeline and the gates only read `policy` and `get_gate_config`). -/
structure PolicyEvaluator where
  policy : List (String × Val)

/-- `PolicyEvaluator.get_gate_config(gate_name)`: `self.policy.get("gates",
{}).get(gate_name, {})`; a non-dict `gates` value has no `.get` and raises. -/
def PolicyEvaluator.get_gate_config (pe : PolicyEvaluator) (gate_name : String) :
    Except String Val :=
  match Val.alookup pe.policy "gates" with
  | none => pure (.dict [])
  | some (.dict gs) => pure ((Val.alookup gs gate_name).getD (.dict []))
  | some _ => Except.error "AttributeError: get"

/-! ## `core/pipeline.py` -/

/-- A gate as the pipeline sees it: the three methods of the `Gate`
interface.  The pipeline claims quantify over arbitrary gates, so the
evaluation function is abstract here; the concrete gates are embedded
separately (their policy-override statefulness is modelled there). -/
structure GateSpec where
  name : String
  evalFn : Intent → Context → Evidence → Option PolicyEvaluator → Option DecisionAction × String
  configSnapshot : List (String × Val) := []
  inputSummaryFn : Evidence → List (String × Val) := fun _ => []

/-- `gate_rationale.split()[0] if gate_rationale else "override"`.  (Python
raises `IndexError` on a non-empty whitespace-only rationale; that corner,
reached by no rationale in this system, is modelled as the empty token.) -/
def headToken (s : String) : String :=
  if s = "" then "override"
  else (wsSplit s.data []).headD ""

/-- Loop state of `GovernancePipeline.evaluate`: the decision being mutated
plus the `winning_gate` / `primary_gate` / `primary_reason_type` locals. -/
structure PipeState where
  decision : Decision
  winning : Option String
  primaryGate : Option String
  primaryReason : String

/-- One iteration of the gate loop in `GovernancePipeline.evaluate`. -/
def pipelineStep (intent : Intent) (context : Context) (evidence : Evidence)
    (policy : Option PolicyEvaluator) (st : PipeState) (gate : GateSpec) : PipeState :=
  let r := gate.evalFn intent context evidence policy
  let gate_action := r.1
  let gate_rationale := r.2
  let config_used := gate.configSnapshot
  let input_summary := gate.inputSummaryFn evidence
  let d1 := st.decision.add_gate_decision gate.name (gate_action.map DecisionAction.value)
      gate_rationale
      (if config_used.isEmpty then none else some (.dict config_used))
      (if input_summary.isEmpty then none else some (.dict input_summary))
  match gate_action with
  | some a =>
    if a.dominates d1.action then
      { decision := d1.override a gate.name gate_rationale (some (.dict config_used))
          (some (.dict input_summary)),
        winning := some gate.name,
        primaryGate := some gate.name,
        primaryReason := headToken gate_rationale }
    else { st with decision := d1 }
  | none => { st with decision := d1 }

/-- The gate loop (`for gate in self.gates`). -/
def runGates (intent : Intent) (context : Context) (evidence : Evidence)
    (policy : Option PolicyEvaluator) : List GateSpec → PipeState → PipeState
  | [], st => st
  | g :: gs, st =>
    runGates intent context evidence policy gs (pipelineStep intent context evidence policy st g)

/-- The opening of `GovernancePipeline.evaluate`: the default decision and the
initial loop locals, with the optional `set_policy_info` call.  `traceId` /
`timestamp` are the fresh values produced by `generate_trace_id()` and
`datetime.now(...)` during this call. -/
def pipelineInit (default_action : DecisionAction) (intent : Intent) (context : Context)
    (evidence : Evidence) (policy : Option PolicyEvaluator) (traceId timestamp : String) :
    PipeState :=
  let d0 : Decision := {
    action := default_action,
    rationale := "No gates triggered",
    evidence_summary := .dict [("intent", .str intent.name),
      ("context", .dict [
        ("channel", match context.channel with | some s => .str s | none => .null),
        ("user_id", match context.user_id with | some s => .str s | none => .null)]),
      ("evidence_keys", .list (evidence.metadata.map (fun kv => Val.str kv.1)))],
    trace_id := traceId,
    timestamp := timestamp }
  let d0 := match policy with
    | some pe => d0.set_policy_info ((Val.alookup pe.policy "name").getD .null)
        ((Val.alookup pe.policy "version").getD .null)
    | none => d0
  { decision := d0, winning := none, primaryGate := none, primaryReason := "default" }

/-- The closing of `GovernancePipeline.evaluate`: set `final_gate` (None for
ALLOW, the winning gate otherwise) and the decision code. -/
def pipelineFinish (st : PipeState) : Decision :=
  let d := st.decision
  let d := if d.action ≠ DecisionAction.ALLOW then { d with final_gate := st.winning }
           else { d with final_gate := none }
  match st.primaryGate with
  | some g => d.set_decision_code (generate_decision_code d.action g st.primaryReason)
  | none => d.set_decision_code ("GOVERNANCE_" ++ d.action.value ++ "_DEFAULT")

/-- `GovernancePipeline.evaluate`: initial decision, gate loop, finalization. -/
def GovernancePipeline.evaluate (gates : List GateSpec) (default_action : DecisionAction)
    (intent : Intent) (context : Context) (evidence : Evidence)
    (policy : Option PolicyEvaluator) (traceId timestamp : String) : Decision :=
  pipelineFinish (runGates intent context evidence policy gates
    (pipelineInit default_action intent context evidence policy traceId timestamp))

/-! ### Projection lemmas for the decision mutators -/

@[simp] theorem Decision.add_gate_decision_action (d : Decision) (n : String)
    (sa : Option String) (r : String) (cu iu : Option Val) :
    (d.add_gate_decision n sa r cu iu).action = d.action := rfl

@[simp] theorem Decision.add_gate_decision_rationale (d : Decision) (n : String)
    (sa : Option String) (r : String) (cu iu : Option Val) :
    (d.add_gate_decision n sa r cu iu).rationale = d.rationale := rfl

@[simp] theorem Decision.add_gate_decision_trace_id (d : Decision) (n : String)
    (sa : Option String) (r : String) (cu iu : Option Val) :
    (d.add_gate_decision n sa r cu iu).trace_id = d.trace_id := rfl

@[simp] theorem Decision.override_action (d : Decision) (a : DecisionAction)
    (n r : String) (cu iu : Option Val) :
    (d.override a n r cu iu).action = a := rfl

@[simp] theorem Decision.override_rationale (d : Decision) (a : DecisionAction)
    (n r : String) (cu iu : Option Val) :
    (d.override a n r cu iu).rationale = r := rfl

@[simp] theorem Decision.override_trace_id (d : Decision) (a : DecisionAction)
    (n r : String) (cu iu : Option Val) :
    (d.override a n r cu iu).trace_id = d.trace_id := rfl

@[simp] theorem Decision.set_decision_code_action (d : Decision) (c : String) :
    (d.set_decision_code c).action = d.action := rfl

@[simp] theorem Decision.set_decision_code_rationale (d : Decision) (c : String) :
    (d.set_decision_code c).rationale = d.rationale := rfl

@[simp] theorem Decision.set_decision_code_trace_id (d : Decision) (c : String) :
    (d.set_decision_code c).trace_id = d.trace_id := rfl

@[simp] theorem Decision.set_decision_code_final_gate (d : Decision) (c : String) :
    (d.set_decision_code c).final_gate = d.final_gate := rfl

@[simp] theorem Decision.set_policy_info_action (d : Decision) (pn pv : Val) :
    (d.set_policy_info pn pv).action = d.action := rfl

@[simp] theorem Decision.set_policy_info_rationale (d : Decision) (pn pv : Val) :
    (d.set_policy_info pn pv).rationale = d.rationale := rfl

@[simp] theorem Decision.set_policy_info_trace_id (d : Decision) (pn pv : Val) :
    (d.set_policy_info pn pv).trace_id = d.trace_id := rfl

/-! ### Loop lemmas -/

/-- The components of the loop state that determine overriding behaviour and
the observable outcome (winning gate, primary gate/reason, action, rationale). -/
def PipeState.obs (st : PipeState) : Option String × Option String × String × DecisionAction × String :=
  (st.winning, st.primaryGate, st.primaryReason, st.decision.action, st.decision.rationale)

theorem dominates_ne_allow (a b : DecisionAction) (h : a.dominates b = true) :
    a ≠ DecisionAction.ALLOW := by
  cases a <;> cases b <;> simp_all [DecisionAction.dominates, DecisionAction.precedence]

theorem pipelineStep_trace_id (i : Intent) (c : Context) (e : Evidence)
    (p : Option PolicyEvaluator) (st : PipeState) (g : GateSpec) :
    (pipelineStep i c e p st g).decision.trace_id = st.decision.trace_id := by
  unfold pipelineStep
  cases hga : (g.evalFn i c e p).1 <;> simp [hga]
  split <;> simp

theorem runGates_trace_id (i : Intent) (c : Context) (e : Evidence)
    (p : Option PolicyEvaluator) (gs : List GateSpec) (st : PipeState) :
    (runGates i c e p gs st).decision.trace_id = st.decision.trace_id := by
  induction gs generalizing st with
  | nil => rfl
  | cons g gs ih => rw [runGates, ih, pipelineStep_trace_id]

theorem pipelineStep_obs_congr (i : Intent) (c : Context) (e : Evidence)
    (p : Option PolicyEvaluator) (g : GateSpec) (st1 st2 : PipeState)
    (h : st1.obs = st2.obs) :
    (pipelineStep i c e p st1 g).obs = (pipelineStep i c e p st2 g).obs := by
  simp only [PipeState.obs, Prod.mk.injEq] at h
  obtain ⟨hw, hpg, hpr, ha, hr⟩ := h
  unfold pipelineStep
  cases hga : (g.evalFn i c e p).1 with
  | none => simp [hga, PipeState.obs, hw, hpg, hpr, ha, hr]
  | some a =>
    simp only [hga, Decision.add_gate_decision_action, ha]
    by_cases hd : a.dominates st2.decision.action = true <;>
      simp [hga, hd, PipeState.obs, hw, hpg, hpr, ha, hr]

theorem runGates_obs_congr (i : Intent) (c : Context) (e : Evidence)
    (p : Option PolicyEvaluator) (gs : List GateSpec) (st1 st2 : PipeState)
    (h : st1.obs = st2.obs) :
    (runGates i c e p gs st1).obs = (runGates i c e p gs st2).obs := by
  induction gs generalizing st1 st2 with
  | nil => exact h
  | cons g gs ih => exact ih _ _ (pipelineStep_obs_congr i c e p g st1 st2 h)

theorem pipelineFinish_action (st : PipeState) :
    (pipelineFinish st).action = st.decision.action := by
  obtain ⟨d, w, pg, pr⟩ := st
  unfold pipelineFinish
  cases pg <;> dsimp only <;> split <;> simp

theorem pipelineFinish_rationale (st : PipeState) :
    (pipelineFinish st).rationale = st.decision.rationale := by
  obtain ⟨d, w, pg, pr⟩ := st
  unfold pipelineFinish
  cases pg <;> dsimp only <;> split <;> simp

theorem pipelineFinish_trace_id (st : PipeState) :
    (pipelineFinish st).trace_id = st.decision.trace_id := by
  obtain ⟨d, w, pg, pr⟩ := st
  unfold pipelineFinish
  cases pg <;> dsimp only <;> split <;> simp

theorem pipelineFinish_final_gate (st : PipeState) :
    (pipelineFinish st).final_gate
      = if st.decision.action ≠ DecisionAction.ALLOW then st.winning else none := by
  obtain ⟨d, w, pg, pr⟩ := st
  unfold pipelineFinish
  cases pg <;> dsimp only <;> split <;> simp_all

theorem pipelineInit_obs (default_action : DecisionAction) (i : Intent) (c : Context)
    (e : Evidence) (p : Option PolicyEvaluator) (t ts : String) :
    (pipelineInit default_action i c e p t ts).obs
      = (none, none, "default", default_action, "No gates triggered") := by
  cases p <;> rfl

theorem pipelineInit_trace_id (default_action : DecisionAction) (i : Intent) (c : Context)
    (e : Evidence) (p : Option PolicyEvaluator) (t ts : String) :
    (pipelineInit default_action i c e p t ts).decision.trace_id = t := by
  cases p <;> rfl

theorem pipelineInit_action (default_action : DecisionAction) (i : Intent) (c : Context)
    (e : Evidence) (p : Option PolicyEvaluator) (t ts : String) :
    (pipelineInit default_action i c e p t ts).decision.action = default_action := by
  cases p <;> rfl

theorem pipelineInit_winning (default_action : DecisionAction) (i : Intent) (c : Context)
    (e : Evidence) (p : Option PolicyEvaluator) (t ts : String) :
    (pipelineInit default_action i c e p t ts).winning = none := by
  cases p <;> rfl

/-- Behaviour of one gate-loop iteration when the gate proposes an action. -/
theorem pipelineStep_some (i : Intent) (c : Context) (e : Evidence)
    (p : Option PolicyEvaluator) (st : PipeState) (g : GateSpec) (a : DecisionAction)
    (hga : (g.evalFn i c e p).1 = some a) :
    (pipelineStep i c e p st g).decision.action
      = (if a.dominates st.decision.action then a else st.decision.action) ∧
    (pipelineStep i c e p st g).winning
      = (if a.dominates st.decision.action then some g.name else st.winning) ∧
    (pipelineStep i c e p st g).decision.rationale
      = (if a.dominates st.decision.action then (g.evalFn i c e p).2
         else st.decision.rationale) := by
  unfold pipelineStep
  simp only [hga, Decision.add_gate_decision_action]
  by_cases hd : a.dominates st.decision.action = true <;> simp [hd]

/-- C5 (determinism modulo trace id): two calls of `GovernancePipeline.evaluate`
with the same gates, default, policy and Intent/Context/Evidence produce the
same action and the same rationale; the per-call fresh trace identifiers are
carried into `trace_id` unchanged, so distinct fresh identifiers give distinct
`trace_id`s. -/
theorem pipeline_deterministic_modulo_trace (gates : List GateSpec)
    (default_action : DecisionAction) (i : Intent) (c : Context) (e : Evidence)
    (p : Option PolicyEvaluator) (t1 ts1 t2 ts2 : String) (hneq : t1 ≠ t2) :
    (GovernancePipeline.evaluate gates default_action i c e p t1 ts1).action
      = (GovernancePipeline.evaluate gates default_action i c e p t2 ts2).action ∧
    (GovernancePipeline.evaluate gates default_action i c e p t1 ts1).rationale
      = (GovernancePipeline.evaluate gates default_action i c e p t2 ts2).rationale ∧
    (GovernancePipeline.evaluate gates default_action i c e p t1 ts1).trace_id
      ≠ (GovernancePipeline.evaluate gates default_action i c e p t2 ts2).trace_id := by
  have hobs := runGates_obs_congr i c e p gates
      (pipelineInit default_action i c e p t1 ts1)
      (pipelineInit default_action i c e p t2 ts2)
      (by rw [pipelineInit_obs, pipelineInit_obs])
  have ha := congrArg (fun x => x.2.2.2.1) hobs
  have hr := congrArg (fun x => x.2.2.2.2) hobs
  simp only [PipeState.obs] at ha hr
  refine ⟨?_, ?_, ?_⟩
  · rw [GovernancePipeline.evaluate, GovernancePipeline.evaluate,
      pipelineFinish_action, pipelineFinish_action]
    exact ha
  · rw [GovernancePipeline.evaluate, GovernancePipeline.evaluate,
      pipelineFinish_rationale, pipelineFinish_rationale]
    exact hr
  · rw [GovernancePipeline.evaluate, GovernancePipeline.evaluate,
      pipelineFinish_trace_id, pipelineFinish_trace_id, runGates_trace_id, runGates_trace_id,
      pipelineInit_trace_id, pipelineInit_trace_id]
    exact hneq

def intent0 : Intent := { name := "greet" }

def context0 : Context := {}

def evidence0 : Evidence := {}

/-- Witness for C5 at a concrete pipeline and two concrete fresh trace ids. -/
theorem pipeline_deterministic_modulo_trace_witness :
    (GovernancePipeline.evaluate [] .ALLOW intent0 context0 evidence0 none "trace-a" "ts").action
      = (GovernancePipeline.evaluate [] .ALLOW intent0 context0 evidence0 none "trace-b" "ts").action ∧
    (GovernancePipeline.evaluate [] .ALLOW intent0 context0 evidence0 none "trace-a" "ts").rationale
      = (GovernancePipeline.evaluate [] .ALLOW intent0 context0 evidence0 none "trace-b" "ts").rationale ∧
    (GovernancePipeline.evaluate [] .ALLOW intent0 context0 evidence0 none "trace-a" "ts").trace_id
      ≠ (GovernancePipeline.evaluate [] .ALLOW intent0 context0 evidence0 none "trace-b" "ts").trace_id :=
  pipeline_deterministic_modulo_trace [] .ALLOW intent0 context0 evidence0 none
    "trace-a" "ts" "trace-b" "ts" (by decide)

/-- C1: in a two-gate pipeline with the normal ALLOW default, gates proposing
actions of differing severity resolve to the higher-severity action in either
order; with equal severity the earlier gate wins (the later proposal does not
override), in both orders. -/
theorem pipeline_precedence_resolution (g1 g2 : GateSpec) (i : Intent) (c : Context)
    (e : Evidence) (p : Option PolicyEvaluator) (t ts : String) (a1 a2 : DecisionAction)
    (h1 : (g1.evalFn i c e p).1 = some a1) (h2 : (g2.evalFn i c e p).1 = some a2) :
    (a1.precedence ≠ a2.precedence →
      (GovernancePipeline.evaluate [g1, g2] .ALLOW i c e p t ts).action
        = (if a1.precedence < a2.precedence then a2 else a1) ∧
      (GovernancePipeline.evaluate [g2, g1] .ALLOW i c e p t ts).action
        = (if a1.precedence < a2.precedence then a2 else a1)) ∧
    (a1 = a2 → a1 ≠ .ALLOW →
      (GovernancePipeline.evaluate [g1, g2] .ALLOW i c e p t ts).final_gate = some g1.name ∧
      (GovernancePipeline.evaluate [g1, g2] .ALLOW i c e p t ts).rationale
        = (g1.evalFn i c e p).2 ∧
      (GovernancePipeline.evaluate [g2, g1] .ALLOW i c e p t ts).final_gate = some g2.name) := by
  have st0 := pipelineInit DecisionAction.ALLOW i c e p t ts
  obtain ⟨hA1, hW1, hR1⟩ :=
    pipelineStep_some i c e p (pipelineInit .ALLOW i c e p t ts) g1 a1 h1
  obtain ⟨hA2, hW2, hR2⟩ :=
    pipelineStep_some i c e p
      (pipelineStep i c e p (pipelineInit .ALLOW i c e p t ts) g1) g2 a2 h2
  obtain ⟨hB2, hV2, hS2⟩ :=
    pipelineStep_some i c e p (pipelineInit .ALLOW i c e p t ts) g2 a2 h2
  obtain ⟨hB1, hV1, hS1⟩ :=
    pipelineStep_some i c e p
      (pipelineStep i c e p (pipelineInit .ALLOW i c e p t ts) g2) g1 a1 h1
  have hact12 : (GovernancePipeline.evaluate [g1, g2] .ALLOW i c e p t ts).action
      = (pipelineStep i c e p (pipelineStep i c e p (pipelineInit .ALLOW i c e p t ts) g1) g2).decision.action := by
    rw [GovernancePipeline.evaluate, pipelineFinish_action]; rfl
  have hact21 : (GovernancePipeline.evaluate [g2, g1] .ALLOW i c e p t ts).action
      = (pipelineStep i c e p (pipelineStep i c e p (pipelineInit .ALLOW i c e p t ts) g2) g1).decision.action := by
    rw [GovernancePipeline.evaluate, pipelineFinish_action]; rfl
  constructor
  · intro hsev
    constructor
    · rw [hact12, hA2, hA1, pipelineInit_action]
      revert hsev
      cases a1 <;> cases a2 <;> decide
    · rw [hact21, hB1, hB2, pipelineInit_action]
      revert hsev
      cases a1 <;> cases a2 <;> decide
  · intro heq hne
    subst heq
    have hdomA : a1.dominates DecisionAction.ALLOW = true := by
      cases a1 <;> simp_all [DecisionAction.dominates, DecisionAction.precedence]
    have hndom : a1.dominates a1 = false := by
      cases a1 <;> decide
    have hfin12 : (GovernancePipeline.evaluate [g1, g2] .ALLOW i c e p t ts).final_gate
        = if (pipelineStep i c e p (pipelineStep i c e p (pipelineInit .ALLOW i c e p t ts) g1) g2).decision.action ≠ DecisionAction.ALLOW
          then (pipelineStep i c e p (pipelineStep i c e p (pipelineInit .ALLOW i c e p t ts) g1) g2).winning
          else none := by
      rw [GovernancePipeline.evaluate, pipelineFinish_final_gate]; rfl
    have hfin21 : (GovernancePipeline.evaluate [g2, g1] .ALLOW i c e p t ts).final_gate
        = if (pipelineStep i c e p (pipelineStep i c e p (pipelineInit .ALLOW i c e p t ts) g2) g1).decision.action ≠ DecisionAction.ALLOW
          then (pipelineStep i c e p (pipelineStep i c e p (pipelineInit .ALLOW i c e p t ts) g2) g1).winning
          else none := by
      rw [GovernancePipeline.evaluate, pipelineFinish_final_gate]; rfl
    have hrat12 : (GovernancePipeline.evaluate [g1, g2] .ALLOW i c e p t ts).rationale
        = (pipelineStep i c e p (pipelineStep i c e p (pipelineInit .ALLOW i c e p t ts) g1) g2).decision.rationale := by
      rw [GovernancePipeline.evaluate, pipelineFinish_rationale]; rfl
    have hA1' : (pipelineStep i c e p (pipelineInit .ALLOW i c e p t ts) g1).decision.action
        = a1 := by rw [hA1, pipelineInit_action, if_pos hdomA]
    have hB2' : (pipelineStep i c e p (pipelineInit .ALLOW i c e p t ts) g2).decision.action
        = a1 := by rw [hB2, pipelineInit_action, if_pos hdomA]
    have hA2' : (pipelineStep i c e p
        (pipelineStep i c e p (pipelineInit .ALLOW i c e p t ts) g1) g2).decision.action = a1 := by
      rw [hA2, hA1', if_neg (by simp [hndom])]
    have hB1' : (pipelineStep i c e p
        (pipelineStep i c e p (pipelineInit .ALLOW i c e p t ts) g2) g1).decision.action = a1 := by
      rw [hB1, hB2', if_neg (by simp [hndom])]
    have hW1' : (pipelineStep i c e p (pipelineInit .ALLOW i c e p t ts) g1).winning
        = some g1.name := by
      rw [hW1, pipelineInit_action, if_pos hdomA]
    have hV2' : (pipelineStep i c e p (pipelineInit .ALLOW i c e p t ts) g2).winning
        = some g2.name := by
      rw [hV2, pipelineInit_action, if_pos hdomA]
    refine ⟨?_, ?_, ?_⟩
    · rw [hfin12, hA2', if_pos hne, hW2, hA1', if_neg (by simp [hndom]), hW1']
    · rw [hrat12, hR2, hA1', if_neg (by simp [hndom]), hR1, pipelineInit_action,
        if_pos hdomA]
    · rw [hfin21, hB1', if_pos hne, hV1, hB2', if_neg (by simp [hndom]), hV2']

def gateRestrict : GateSpec :=
  { name := "g-restrict", evalFn := fun _ _ _ _ => (some .RESTRICT, "restrict for test") }

def gateEscalate : GateSpec :=
  { name := "g-escalate", evalFn := fun _ _ _ _ => (some .ESCALATE, "escalate for test") }

/-- Witness for C1 at concrete gates proposing RESTRICT and ESCALATE. -/
theorem pipeline_precedence_resolution_witness :
    (GovernancePipeline.evaluate [gateRestrict, gateEscalate] .ALLOW intent0 context0 evidence0
      none "t" "ts").action = .ESCALATE ∧
    (GovernancePipeline.evaluate [gateEscalate, gateRestrict] .ALLOW intent0 context0 evidence0
      none "t" "ts").action = .ESCALATE := by
  have h := (pipeline_precedence_resolution gateRestrict gateEscalate intent0 context0 evidence0
      none "t" "ts" .RESTRICT .ESCALATE rfl rfl).1 (by decide)
  exact ⟨h.1.trans (by decide), h.2.trans (by decide)⟩

/-- C2 counterexample: with a configured default action of RESTRICT and no gate
overriding, the final action is RESTRICT while `final_gate` is null, so
"`final_gate` is null if and only if the action is ALLOW" fails as stated for
arbitrary configured defaults. -/
theorem final_gate_null_iff_allow_counterexample :
    ¬ (((GovernancePipeline.evaluate [] .RESTRICT intent0 context0 evidence0 none
          "t" "ts").final_gate = none)
        ↔ ((GovernancePipeline.evaluate [] .RESTRICT intent0 context0 evidence0 none
          "t" "ts").action = .ALLOW)) := by
  decide

/-- Invariant of the gate loop: either no gate has overridden and the action is
still ALLOW, or the winning gate is a configured gate whose proposal equals
the current (non-ALLOW) action. -/
theorem runGates_winner_invariant (i : Intent) (c : Context) (e : Evidence)
    (p : Option PolicyEvaluator) (full : List GateSpec) :
    ∀ gs : List GateSpec, (∀ g ∈ gs, g ∈ full) → ∀ st : PipeState,
      ((st.winning = none ∧ st.decision.action = .ALLOW) ∨
        (∃ g, g ∈ full ∧ st.winning = some g.name ∧
          (g.evalFn i c e p).1 = some st.decision.action ∧
          st.decision.action ≠ .ALLOW)) →
      (((runGates i c e p gs st).winning = none ∧
          (runGates i c e p gs st).decision.action = .ALLOW) ∨
        (∃ g, g ∈ full ∧ (runGates i c e p gs st).winning = some g.name ∧
          (g.evalFn i c e p).1 = some (runGates i c e p gs st).decision.action ∧
          (runGates i c e p gs st).decision.action ≠ .ALLOW)) := by
  intro gs
  induction gs with
  | nil => intro _ st h; exact h
  | cons g gs ih =>
    intro hsub st h
    rw [runGates]
    apply ih (fun x hx => hsub x (List.mem_cons_of_mem g hx))
    cases hga : (g.evalFn i c e p).1 with
    | none =>
      have hw : (pipelineStep i c e p st g).winning = st.winning := by
        unfold pipelineStep; simp [hga]
      have hac : (pipelineStep i c e p st g).decision.action = st.decision.action := by
        unfold pipelineStep; simp [hga]
      rw [hw, hac]; exact h
    | some a =>
      obtain ⟨hA, hW, _⟩ := pipelineStep_some i c e p st g a hga
      by_cases hd : a.dominates st.decision.action = true
      · right
        refine ⟨g, hsub g (List.mem_cons_self g gs), ?_, ?_, ?_⟩
        · rw [hW, if_pos hd]
        · rw [hA, if_pos hd]; exact hga
        · rw [hA, if_pos hd]; exact dominates_ne_allow a _ hd
      · rw [hA, if_neg hd, hW, if_neg hd]; exact h

/-- C2 (amended): for the default action ALLOW, `final_gate` is null iff the
final action is ALLOW; when the final action is not ALLOW, `final_gate` names
a configured gate whose suggested action equals the final action.  (With a
non-ALLOW configured default and no dominating gate, `final_gate` is null
while the action is not ALLOW — see the counterexample.) -/
theorem final_gate_null_iff_allow_amended (gates : List GateSpec) (i : Intent) (c : Context)
    (e : Evidence) (p : Option PolicyEvaluator) (t ts : String) :
    ((GovernancePipeline.evaluate gates .ALLOW i c e p t ts).final_gate = none
      ↔ (GovernancePipeline.evaluate gates .ALLOW i c e p t ts).action = .ALLOW) ∧
    ((GovernancePipeline.evaluate gates .ALLOW i c e p t ts).action ≠ .ALLOW →
      ∃ g, g ∈ gates ∧
        (GovernancePipeline.evaluate gates .ALLOW i c e p t ts).final_gate = some g.name ∧
        (g.evalFn i c e p).1
          = some (GovernancePipeline.evaluate gates .ALLOW i c e p t ts).action) := by
  have hinv := runGates_winner_invariant i c e p gates gates (fun _ hx => hx)
      (pipelineInit .ALLOW i c e p t ts)
      (Or.inl ⟨pipelineInit_winning .ALLOW i c e p t ts, pipelineInit_action .ALLOW i c e p t ts⟩)
  have hact : (GovernancePipeline.evaluate gates .ALLOW i c e p t ts).action
      = (runGates i c e p gates (pipelineInit .ALLOW i c e p t ts)).decision.action := by
    rw [GovernancePipeline.evaluate, pipelineFinish_action]
  have hfg : (GovernancePipeline.evaluate gates .ALLOW i c e p t ts).final_gate
      = if (runGates i c e p gates (pipelineInit .ALLOW i c e p t ts)).decision.action
            ≠ DecisionAction.ALLOW
        then (runGates i c e p gates (pipelineInit .ALLOW i c e p t ts)).winning
        else none := by
    rw [GovernancePipeline.evaluate, pipelineFinish_final_gate]
  rcases hinv with ⟨hw, ha⟩ | ⟨g, hmem, hw, hprop, hne⟩
  · constructor
    · rw [hact, hfg, ha]; simp
    · intro hcontra; rw [hact, ha] at hcontra; exact absurd rfl hcontra
  · constructor
    · rw [hact, hfg, if_pos hne, hw]
      constructor
      · intro hnone; cases hnone
      · intro hallow; exact absurd hallow hne
    · intro _
      refine ⟨g, hmem, ?_, ?_⟩
      · rw [hfg, if_pos hne, hw]
      · rw [hact]; exact hprop

/-- Witness for the amended C2 at a concrete one-gate pipeline. -/
theorem final_gate_null_iff_allow_amended_witness :
    ((GovernancePipeline.evaluate [gateEscalate] .ALLOW intent0 context0 evidence0 none
        "t" "ts").final_gate = none
      ↔ (GovernancePipeline.evaluate [gateEscalate] .ALLOW intent0 context0 evidence0 none
        "t" "ts").action = .ALLOW) ∧
    ∃ g, g ∈ [gateEscalate] ∧
      (GovernancePipeline.evaluate [gateEscalate] .ALLOW intent0 context0 evidence0 none
        "t" "ts").final_gate = some g.name ∧
      (g.evalFn intent0 context0 evidence0 none).1
        = some (GovernancePipeline.evaluate [gateEscalate] .ALLOW intent0 context0 evidence0 none
          "t" "ts").action := by
  have h := final_gate_null_iff_allow_amended [gateEscalate] intent0 context0 evidence0 none
    "t" "ts"
  exact ⟨h.1, h.2 (by decide)⟩

/-! ## `policy/schema_validation.py` -/

def REQUIRED_TOP_LEVEL_KEYS : List String := ["version", "name", "rules"]

def REQUIRED_RULE_KEYS : List String := ["name", "conditions", "action"]

def SUPPORTED_OPERATORS : List String :=
  ["equals", "not_equals", "in", "not_in", "contains", "not_contains", "any_of", "all_of",
   "gt", "gte", "lt", "lte", "between",
   "is_true", "is_false", "is_null", "is_not_null",
   "matches", "starts_with", "ends_with"]

def SUPPORTED_ACTIONS : List String := ["ALLOW", "RESTRICT", "ESCALATE", "STOP"]

/-- Python `key in container` for the containers the rule validator meets. -/
def pyIn (key : String) (v : Val) : Except String Bool :=
  match v with
  | .dict es => pure (Val.alookup es key).isSome
  | .list xs => pure (xs.contains (.str key))
  | .str s => pure (strContains s key)
  | _ => Except.error "TypeError: argument is not iterable"

/-- Python `container[key]` with a string key. -/
def pySubscript (v : Val) (key : String) : Except String Val :=
  match v with
  | .dict es =>
    match Val.alookup es key with
    | some w => pure w
    | none => Except.error ("KeyError: " ++ key)
  | _ => Except.error "TypeError: indices must be integers"

/-- Python `v in {set of strings}`: equality membership for hashable scalars,
`TypeError` for unhashable containers. -/
def pyInStrSet (v : Val) (s : List String) : Except String Bool :=
  match v with
  | .str x => pure (s.contains x)
  | .list _ | .dict _ => Except.error "TypeError: unhashable type"
  | _ => pure false

/-- `isinstance(v, int)`: `bool` is an `int` in Python.  (Values merged into
`ℚ` recover the int/float distinction through the denominator; a Python float
holding an integral value is not distinguished — no claim depends on it.) -/
def pyIsInt : Val → Bool
  | .bool _ => true
  | .num q => decide (q.den = 1)
  | _ => false

/-- Python `repr` of a list of strings. -/
def pyListRepr (xs : List String) : String :=
  "[" ++ String.intercalate ", " (xs.map (fun s => "'" ++ s ++ "'")) ++ "]"

/-- `f"{sorted(SUPPORTED_OPERATORS)}"` in the unsupported-operator message. -/
def supportedOperatorsRepr : String :=
  pyListRepr (SUPPORTED_OPERATORS.mergeSort (fun a b => a ≤ b))

/-- `f"{SUPPORTED_ACTIONS}"` in the invalid-action message (a Python set repr;
its iteration order is unspecified, one rendering is fixed here). -/
def supportedActionsRepr : String :=
  "\x7b'ALLOW', 'RESTRICT', 'ESCALATE', 'STOP'\x7d"

/-- `_validate_conditions(conditions, path)`. -/
def validate_conditions (conditions : List (String × Val)) (path : String) : List String :=
  conditions.foldl (fun errors fc =>
    let field_path := fc.1
    match fc.2 with
    | .dict cond =>
      errors ++ cond.foldl (fun errs ov =>
        let operator := ov.1
        let value := ov.2
        let errs := if SUPPORTED_OPERATORS.contains operator then errs
          else errs ++ [path ++ "." ++ field_path ++ ": Unsupported operator '" ++ operator ++
            "'. Supported: " ++ supportedOperatorsRepr]
        if ["gt", "gte", "lt", "lte", "between"].contains operator then
          if value.isPyNumber then errs
          else errs ++ [path ++ "." ++ field_path ++ ": Operator '" ++ operator ++
            "' requires numeric value"]
        else if ["in", "not_in", "any_of", "all_of"].contains operator then
          match value with
          | .list _ => errs
          | _ => errs ++ [path ++ "." ++ field_path ++ ": Operator '" ++ operator ++
              "' requires list value"]
        else if ["is_true", "is_false", "is_null", "is_not_null"].contains operator then
          match value with
          | .bool _ => errs
          | _ => errs ++ [path ++ "." ++ field_path ++ ": Operator '" ++ operator ++
              "' value must be true or false"]
        else errs) []
    | _ => errors ++ [path ++ "." ++ field_path ++ ": Condition must be a dictionary"]) []

/-- `_validate_rule(rule, path)`. -/
def validate_rule (rule : Val) (path : String) : Except String (List String) := do
  let mut errors : List String := []
  for key in REQUIRED_RULE_KEYS do
    if !(← pyIn key rule) then
      errors := errors ++ [path ++ ": Missing required key '" ++ key ++ "'"]
  if ← pyIn "name" rule then
    let v ← pySubscript rule "name"
    match v with
    | .str s =>
      if pyStrip s = "" then
        errors := errors ++ [path ++ ": Rule name must be a non-empty string"]
    | _ => errors := errors ++ [path ++ ": Rule name must be a non-empty string"]
  if ← pyIn "action" rule then
    let v ← pySubscript rule "action"
    if !(← pyInStrSet v SUPPORTED_ACTIONS) then
      errors := errors ++ [path ++ ": Invalid action '" ++ v.pyStr ++ "'. Must be one of: " ++
        supportedActionsRepr]
  if ← pyIn "conditions" rule then
    let v ← pySubscript rule "conditions"
    match v with
    | .dict cond => errors := errors ++ validate_conditions cond (path ++ ".conditions")
    | _ => errors := errors ++ [path ++ ": Conditions must be a dictionary"]
  if ← pyIn "enabled" rule then
    let v ← pySubscript rule "enabled"
    match v with
    | .bool _ => pure ()
    | _ => errors := errors ++ [path ++ ": 'enabled' must be a boolean"]
  if ← pyIn "priority" rule then
    let v ← pySubscript rule "priority"
    let ok := match v with
      | .bool _ => true
      | .num q => decide (q.den = 1) && decide (0 ≤ q)
      | _ => false
    if !ok then
      errors := errors ++ [path ++ ": 'priority' must be a non-negative integer"]
  return errors

/-- The error-collecting pass of `validate_policy_schema` (everything before
the final `if errors: raise`). -/
def collectPolicyErrors (policy : List (String × Val)) : Except String (List String) := do
  let mut errors : List String := []
  for key in REQUIRED_TOP_LEVEL_KEYS do
    if (Val.alookup policy key).isNone then
      errors := errors ++ ["Missing required top-level key: " ++ key]
  match Val.alookup policy "version" with
  | some (.str s) =>
    if !(pyStartsWith s "1.") then
      errors := errors ++ ["Unsupported policy version: " ++ s ++ " (only 1.x supported)"]
  | some _ => errors := errors ++ ["Policy version must be a string"]
  | none => pure ()
  match Val.alookup policy "name" with
  | some (.str s) =>
    if pyStrip s = "" then
      errors := errors ++ ["Policy name must be a non-empty string"]
  | some _ => errors := errors ++ ["Policy name must be a non-empty string"]
  | none => pure ()
  match Val.alookup policy "rules" with
  | some (.list rules) =>
    let mut i : Nat := 0
    for rule in rules do
      let rerrs ← validate_rule rule ("rules[" ++ toString i ++ "]")
      errors := errors ++ rerrs
      i := i + 1
  | some _ => errors := errors ++ ["Policy 'rules' must be a list"]
  | none => pure ()
  match Val.alookup policy "gates" with
  | some (.dict gs) =>
    for kv in gs do
      match kv.2 with
      | .dict _ => pure ()
      | _ => errors := errors ++ ["Gate config for '" ++ kv.1 ++ "' must be a dictionary"]
  | some _ => errors := errors ++ ["Policy 'gates' must be a dictionary"]
  | none => pure ()
  return errors

/-- `validate_policy_schema(policy)`: collects every error in one pass, then
raises a single `PolicyValidationError` whose message carries only the error
count (`f"Policy validation failed with {len(errors)} error(s)"`); the
collected messages are discarded.  Returns `[]` when valid. -/
def validate_policy_schema (policy : List (String × Val)) : Except String (List String) := do
  let errors ← collectPolicyErrors policy
  if !errors.isEmpty then
    Except.error ("Policy validation failed with " ++ toString errors.length ++ " error(s)")
  else
    return []

/-- C3 (code bug): validation finds all errors of the empty policy in one pass
(three missing keys collected), but the single raised failure carries only the
error count — none of the individual error messages occur in it. -/
theorem policy_validation_single_failure_discards_messages :
    collectPolicyErrors [] = Except.ok
      ["Missing required top-level key: version",
       "Missing required top-level key: name",
       "Missing required top-level key: rules"] ∧
    validate_policy_schema [] = Except.error "Policy validation failed with 3 error(s)" ∧
    strContains "Policy validation failed with 3 error(s)"
      "Missing required top-level key: version" = false ∧
    strContains "Policy validation failed with 3 error(s)"
      "Missing required top-level key: name" = false ∧
    strContains "Policy validation failed with 3 error(s)"
      "Missing required top-level key: rules" = false :=
  ⟨rfl, rfl, rfl, rfl, rfl⟩

/-- The `between` branch of `PolicyEvaluator._apply_operator`: matches iff the
looked-up value is numeric and the expected value is a two-element list with
`expected[0] <= value <= expected[1]` (chained comparison, short-circuit). -/
def applyBetween (value expected : Val) : Except String Bool :=
  match expected with
  | .list [lo, hi] =>
    if value.isPyNumber then do
      let b1 ← pyLe lo value
      if b1 then pyLe value hi else pure false
    else pure false
  | _ => pure false

/-- A schema-conforming policy whose only rule uses `between` with the
two-element numeric range that the evaluator requires. -/
def betweenPolicy : List (String × Val) :=
  [("version", .str "1.0"), ("name", .str "demo"),
   ("rules", .list [.dict
     [("name", .str "confidence-band"), ("action", .str "ALLOW"),
      ("conditions", .dict
        [("evidence.rag.confidence", .dict
          [("between", .list [.num (1/5), .num (3/5)])])])]])]

/-- C4 (code bug): the evaluator's `between` matches exactly the numbers lying
inclusively in the two-element range, yet the schema validator rejects the very
shape the evaluator requires ("requires numeric value" on a list-valued
`between`), so the rule above fails validation. -/
theorem between_rule_rejected_by_validator :
    (∀ x lo hi : ℚ, applyBetween (.num x) (.list [.num lo, .num hi])
        = Except.ok (decide (lo ≤ x ∧ x ≤ hi))) ∧
    applyBetween (.str "0.5") (.list [.num (1/5), .num (3/5)]) = Except.ok false ∧
    applyBetween (.num (1/2)) (.num (1/2)) = Except.ok false ∧
    collectPolicyErrors betweenPolicy = Except.ok
      ["rules[0].conditions.evidence.rag.confidence: Operator 'between' requires numeric value"] ∧
    validate_policy_schema betweenPolicy
      = Except.error "Policy validation failed with 1 error(s)" := by
  refine ⟨?_, rfl, rfl, rfl, rfl⟩
  intro x lo hi
  by_cases h1 : lo ≤ x <;> by_cases h2 : x ≤ hi <;>
    simp [applyBetween, pyLe, Val.toNum?, Val.isPyNumber, h1, h2, Bind.bind, Except.bind,
      Pure.pure, Except.pure]

/-! ## `gates/fact_verifiability.py` -/

/-- Configuration fields of `FactVerifiabilityGate` (mutable instance state;
policy overrides may store arbitrary dynamic values in them).
`require_realtime_facts` is a Python set, modelled as a list (only membership
is consumed; deduplication does not affect membership). -/
structure FVConfig where
  require_realtime_facts : List Val := []
  verifiable_threshold : Val := .num (7/10)
  stop_on_unverifiable : Val := .bool false
deriving DecidableEq

/-- The policy-override block at the top of `FactVerifiabilityGate.evaluate`:
a truthy `policy_config` dict replaces each field whose key is present; an
absent key keeps the current field value.  `set(...)` over a policy-supplied
non-list value raises (string/dict iteration is not modelled).  A falsy
`policy_config` leaves the configuration untouched. -/
def fvApplyPolicy (cfg : FVConfig) (policy_config : Val) : Except String FVConfig :=
  if policy_config.truthy = false then pure cfg
  else match policy_config with
    | .dict pc => do
      let rrf ← match Val.alookup pc "require_realtime_facts" with
        | none => pure cfg.require_realtime_facts
        | some (.list xs) => pure xs
        | some _ => Except.error "TypeError: not iterable"
      pure { require_realtime_facts := rrf,
             verifiable_threshold :=
               (Val.alookup pc "verifiable_threshold").getD cfg.verifiable_threshold,
             stop_on_unverifiable :=
               (Val.alookup pc "stop_on_unverifiable").getD cfg.stop_on_unverifiable }
    | _ => Except.error "AttributeError: get"

/-- Rule 1 of `FactVerifiabilityGate.evaluate` (`verifiable is False`). -/
def fvRule1 (cfg : FVConfig) (intent : Intent) (verifiable is_rt src fresh conf : Val) :
    Except String (Option (Option DecisionAction × String)) :=
  if verifiable = .bool false then
    if is_rt.truthy then
      let action := if cfg.stop_on_unverifiable.truthy then DecisionAction.STOP
                    else DecisionAction.RESTRICT
      pure (some (some action,
        "Intent '" ++ intent.name ++
        "' requires real-time facts but facts are not verifiable (source: " ++ src.pyStr ++
        ", freshness: " ++ fresh.pyStr ++ ")"))
    else do
      let cs ← fmtVal2 conf
      pure (some (some .RESTRICT,
        "Facts are not verifiable (source: " ++ src.pyStr ++ ", confidence: " ++ cs ++ ")"))
  else pure none

/-- Rule 2 (low verifiability confidence; the threshold comparison is a
strict `<`). -/
def fvRule2 (cfg : FVConfig) (intent : Intent) (conf is_rt : Val) :
    Except String (Option (Option DecisionAction × String)) := do
  let lt ← pyLt conf cfg.verifiable_threshold
  if lt then do
    let cs ← fmtVal2 conf
    let ts ← fmtVal2 cfg.verifiable_threshold
    if is_rt.truthy then
      pure (some (some .RESTRICT,
        "Intent '" ++ intent.name ++ "' requires high-confidence facts, but confidence is " ++
        cs ++ " (threshold: " ++ ts ++ ")"))
    else
      pure (some (none,
        "Fact verifiability confidence is " ++ cs ++ " (below threshold " ++ ts ++ ")"))
  else pure none

/-- Rule 3 (untrusted source; both branches return immediately). -/
def fvRule3 (intent : Intent) (src is_rt : Val) : Option (Option DecisionAction × String) :=
  if src = .str "unknown" ∨ src = .str "untrusted" ∨ src = .str "user_provided" then
    if is_rt.truthy then
      some (some .RESTRICT,
        "Intent '" ++ intent.name ++ "' requires trusted sources, but source is '" ++
        src.pyStr ++ "'")
    else
      some (none, "Fact source is '" ++ src.pyStr ++ "' - consider verification")
  else none

/-- Rule 4 (stale freshness). -/
def fvRule4 (fresh : Val) : Option (Option DecisionAction × String) :=
  if fresh = .str "stale" ∨ fresh = .str "outdated" ∨ fresh = .str "expired" then
    some (some .RESTRICT,
      "Facts may be stale (freshness: " ++ fresh.pyStr ++ ") - recommend refresh")
  else none

/-- The rule chain of `FactVerifiabilityGate.evaluate` after the policy
override (first matching rule returns). -/
def fvEvaluate (cfg : FVConfig) (intent : Intent) (evidence : Evidence) :
    Except String (Option DecisionAction × String) := do
  let verifiable := evidence.get "facts.verifiable" (.bool true)
  let verifiable_confidence := evidence.get "facts.verifiable_confidence" (.num 1)
  let needs_realtime := cfg.require_realtime_facts.contains (.str intent.name)
  let is_realtime_dependent := evidence.get "facts.requires_realtime" (.bool needs_realtime)
  let fact_source := evidence.get "facts.source" (.str "unknown")
  let fact_freshness := evidence.get "facts.freshness" (.str "unknown")
  match ← fvRule1 cfg intent verifiable is_realtime_dependent fact_source fact_freshness
      verifiable_confidence with
  | some r => pure r
  | none =>
    match ← fvRule2 cfg intent verifiable_confidence is_realtime_dependent with
    | some r => pure r
    | none =>
      match fvRule3 intent fact_source is_realtime_dependent with
      | some r => pure r
      | none =>
        match fvRule4 fact_freshness with
        | some r => pure r
        | none => do
          let cs ← fmtVal2 verifiable_confidence
          pure (none,
            "Facts are verifiable (confidence: " ++ cs ++ ", source: " ++
            fact_source.pyStr ++ ")")

/-- `FactVerifiabilityGate.evaluate` including the policy-override mutation:
returns the result together with the updated instance configuration (the
fields the Python gate mutates in place and reports via
`get_config_snapshot`). -/
def fvEvaluateWithPolicy (cfg : FVConfig) (intent : Intent) (evidence : Evidence)
    (policy : Option PolicyEvaluator) :
    Except String ((Option DecisionAction × String) × FVConfig) := do
  let cfg ← match policy with
    | none => pure cfg
    | some pe => do
      let pc ← pe.get_gate_config "fact_verifiability"
      fvApplyPolicy cfg pc
  let r ← fvEvaluate cfg intent evidence
  pure (r, cfg)

/-- Applying the override block across a sequence of evaluations (the same
gate instance consulted with one policy per call). -/
def fvApplyPolicies (cfg : FVConfig) : List Val → Except String FVConfig
  | [] => pure cfg
  | pc :: rest => do
    let c ← fvApplyPolicy cfg pc
    fvApplyPolicies c rest

/-! ## `gates/uncertainty.py` -/

/-- Configuration fields of `UncertaintyGate`. -/
structure UncConfig where
  confidence_threshold : Val := .num (3/5)
  stop_on_conflict : Val := .bool false
  outdated_version_days : Val := .num 30
deriving DecidableEq

/-- Rule 1 (low RAG confidence; strict `<`). -/
def uncRule1 (cfg : UncConfig) (rag_confidence rag_source : Val) :
    Except String (Option (Option DecisionAction × String)) := do
  let lt ← pyLt rag_confidence cfg.confidence_threshold
  if lt then do
    let cs ← fmtVal2 rag_confidence
    let ts ← fmtVal2 cfg.confidence_threshold
    pure (some (some .RESTRICT,
      "Retrieval confidence " ++ cs ++ " is below threshold " ++ ts ++ " (source: " ++
      rag_source.pyStr ++ ")"))
  else pure none

/-- Rule 2 (conflicting retrieval results; `or` short-circuits). -/
def uncRule2 (cfg : UncConfig) (has_conflicts conflict_count : Val) :
    Except String (Option (Option DecisionAction × String)) := do
  let fire ← if has_conflicts.truthy then pure true else pyLt (.num 0) conflict_count
  if fire then
    let action := if cfg.stop_on_conflict.truthy then DecisionAction.STOP
                  else DecisionAction.RESTRICT
    pure (some (some action,
      "Retrieval has " ++ conflict_count.pyStr ++
      " conflicting results - cannot determine correct answer"))
  else pure none

/-- Rule 3 (outdated knowledge base). -/
def uncRule3 (cfg : UncConfig) (kb_version kb_age_days : Val) :
    Except String (Option (Option DecisionAction × String)) := do
  let gt ← pyLt cfg.outdated_version_days kb_age_days
  if gt then
    pure (some (some .RESTRICT,
      "Knowledge base version " ++ kb_version.pyStr ++ " is " ++ kb_age_days.pyStr ++
      " days old (outdated threshold: " ++ cfg.outdated_version_days.pyStr ++ " days)"))
  else pure none

/-- Rule 4 (tool disagreement). -/
def uncRule4 (tool_disagreement : Val) : Option (Option DecisionAction × String) :=
  if tool_disagreement.truthy then
    some (some .ESCALATE, "Multiple tools provided conflicting results - requires human review")
  else none

/-- Rule 5 (incomplete retrieval coverage; strict `<`; the threshold is read
from the evidence, default 0.8). -/
def uncRule5 (retrieval_coverage coverage_threshold : Val) :
    Except String (Option (Option DecisionAction × String)) := do
  let lt ← pyLt retrieval_coverage coverage_threshold
  if lt then do
    let cs ← fmtVal2 retrieval_coverage
    let ts ← fmtVal2 coverage_threshold
    pure (some (some .RESTRICT,
      "Retrieval coverage " ++ cs ++ " is incomplete (threshold: " ++ ts ++ ")"))
  else pure none

/-- The rule chain of `UncertaintyGate.evaluate` after the policy override. -/
def uncEvaluate (cfg : UncConfig) (intent : Intent) (evidence : Evidence) :
    Except String (Option DecisionAction × String) := do
  let rag_confidence := evidence.get "rag.confidence" (.num 1)
  let rag_source := evidence.get "rag.source" (.str "unknown")
  match ← uncRule1 cfg rag_confidence rag_source with
  | some r => pure r
  | none =>
    let has_conflicts := evidence.get "rag.has_conflicts" (.bool false)
    let conflict_count := evidence.get "rag.conflict_count" (.num 0)
    match ← uncRule2 cfg has_conflicts conflict_count with
    | some r => pure r
    | none =>
      let kb_version := evidence.get "rag.kb_version" (.str "unknown")
      let kb_age_days := evidence.get "rag.kb_age_days" (.num 0)
      match ← uncRule3 cfg kb_version kb_age_days with
      | some r => pure r
      | none =>
        let tool_disagreement := evidence.get "rag.tool_disagreement" (.bool false)
        match uncRule4 tool_disagreement with
        | some r => pure r
        | none =>
          let retrieval_coverage := evidence.get "rag.coverage" (.num 1)
          let coverage_threshold := evidence.get "rag.coverage_threshold" (.num (4/5))
          match ← uncRule5 retrieval_coverage coverage_threshold with
          | some r => pure r
          | none => do
            let cs ← fmtVal2 rag_confidence
            let cov ← fmtVal2 retrieval_coverage
            pure (none,
              "Uncertainty is acceptable (confidence: " ++ cs ++ ", coverage: " ++ cov ++ ")")

/-! ## `gates/safety.py` -/

def FRAUD_KEYWORDS : List String :=
  ["bypass", "credit card generator", "card number generator", "cvv generator",
   "fake payment", "payment fraud", "chargeback fraud", "refund fraud", "free credit",
   "steal payment", "hack payment", "payment system", "get services for free"]

def ILLEGAL_CONTENT_KEYWORDS : List String :=
  ["make bomb", "how to make explosive", "drug manufacturing", "synthetic drug",
   "illegal drug", "weapon manufactur", "fake id", "fake identification", "identity theft",
   "money launder", "without showing id", "without id", "buy cigarettes", "age restricted"]

def SECURITY_ATTACK_KEYWORDS : List String :=
  ["sql injection", "xss attack", "ddos attack", "hack into", "exploit vulnerability",
   "brute force", "inject code"]

/-- Configuration fields of `SafetyGate`.  The keyword sets are Python sets,
modelled as lists; Python set iteration order (which picks the reported
keyword when several match) is unspecified, the list order stands in for it. -/
structure SafetyConfig where
  fraud_keywords : List String := FRAUD_KEYWORDS
  illegal_keywords : List String := ILLEGAL_CONTENT_KEYWORDS
  security_keywords : List String := SECURITY_ATTACK_KEYWORDS
  stop_on_sensitive_stop : Val := .bool false
deriving DecidableEq

/-- `intent.parameters.get("user_input", "").lower()`; a non-string payload
has no `.lower` and raises. -/
def safetyUserInput (intent : Intent) : Except String String :=
  match Val.alookup intent.parameters "user_input" with
  | none => pure (pyLower "")
  | some (.str s) => pure (pyLower s)
  | some _ => Except.error "AttributeError: lower"

/-- Rules 1-3 loop body: the first keyword occurring in the user input. -/
def safetyKeywordHit (keywords : List String) (user_input : String) : Option String :=
  keywords.find? (fun kw => strContains user_input kw)

/-- Rule 5 and the no-override annotation: the tail of `SafetyGate.evaluate`
once the keyword rules and the harm-risk rule have fallen through. -/
def safetyTail (cfg : SafetyConfig) (intent : Intent) (evidence : Evidence) :
    Option DecisionAction × String :=
  if cfg.stop_on_sensitive_stop.truthy then
    let is_sensitive := evidence.get "topic.is_sensitive" (.bool false)
    if is_sensitive.truthy then
      (some .STOP,
        "Sensitive topic with stop flag - Intent '" ++ intent.name ++
        "' requires human specialist")
    else (none, "No safety risks detected for intent '" ++ intent.name ++ "'")
  else (none, "No safety risks detected for intent '" ++ intent.name ++ "'")

/-- `SafetyGate.evaluate` after the policy override.  The harm-risk fallback
fires only on `harm_risk is True` (the boolean singleton). -/
def safetyEvaluate (cfg : SafetyConfig) (intent : Intent) (evidence : Evidence) :
    Except String (Option DecisionAction × String) := do
  let user_input ← safetyUserInput intent
  match safetyKeywordHit cfg.fraud_keywords user_input with
  | some kw => pure (some .STOP,
      "Fraud request detected: '" ++ kw ++ "' - Refusing to process payment bypass/fraud attempt")
  | none =>
    match safetyKeywordHit cfg.illegal_keywords user_input with
    | some kw => pure (some .STOP,
        "Illegal content request detected: '" ++ kw ++ "' - Refusing to provide illegal/information")
    | none =>
      match safetyKeywordHit cfg.security_keywords user_input with
      | some kw => pure (some .STOP,
          "Security attack detected: '" ++ kw ++ "' - Refusing to process security request")
      | none =>
        let harm_risk := evidence.get "topic.harm_risk" (.bool false)
        if harm_risk = .bool true then
          let intent_name := pyLower intent.name
          if strContains intent_name "fraud" ∨ strContains intent_name "payment" ∨
              strContains intent_name "bypass" then
            pure (some .STOP,
              "Fraud request detected: '" ++ intent.name ++
              "' - Refusing to process payment bypass/fraud attempt")
          else if strContains intent_name "illegal" ∨ strContains intent_name "restricted" then
            pure (some .STOP,
              "Illegal content request detected: '" ++ intent.name ++
              "' - Refusing to provide illegal/restricted information")
          else
            pure (some .STOP, "Request flagged as high-risk/harmful - Refusing to process")
        else
          pure (safetyTail cfg intent evidence)

/-! ### Gate rule lemmas -/

theorem fvRule1_none (cfg : FVConfig) (intent : Intent) (verifiable is_rt src fresh conf : Val)
    (hv : verifiable ≠ .bool false) :
    fvRule1 cfg intent verifiable is_rt src fresh conf = Except.ok none := by
  unfold fvRule1
  rw [if_neg hv]
  rfl

theorem fvRule2_eq_none_iff (cfg : FVConfig) (intent : Intent) (c t : ℚ) (is_rt : Val)
    (ht : cfg.verifiable_threshold = .num t) :
    (fvRule2 cfg intent (.num c) is_rt = Except.ok none ↔ ¬ c < t) := by
  unfold fvRule2
  rw [ht]
  by_cases h : c < t <;>
    · simp [pyLt, Val.toNum?, fmtVal2, h, Bind.bind, Except.bind, Pure.pure, Except.pure]
      try split <;> simp

theorem uncRule1_eq_none_iff (cfg : UncConfig) (c t : ℚ) (src : Val)
    (ht : cfg.confidence_threshold = .num t) :
    (uncRule1 cfg (.num c) src = Except.ok none ↔ ¬ c < t) := by
  unfold uncRule1
  rw [ht]
  by_cases h : c < t <;>
    simp [pyLt, Val.toNum?, fmtVal2, h, Bind.bind, Except.bind, Pure.pure, Except.pure]

theorem uncRule5_eq_none_iff (cov ct : ℚ) :
    (uncRule5 (.num cov) (.num ct) = Except.ok none ↔ ¬ cov < ct) := by
  unfold uncRule5
  by_cases h : cov < ct <;>
    simp [pyLt, Val.toNum?, fmtVal2, h, Bind.bind, Except.bind, Pure.pure, Except.pure]

/-- C6: gate threshold comparisons are strict `<`: the low-confidence rule of
`FactVerifiabilityGate` and the low-confidence and low-coverage rules of
`UncertaintyGate` fire exactly when the value is strictly below the threshold,
so a value equal to the threshold passes. -/
theorem threshold_equality_passes :
    (∀ (cfg : FVConfig) (intent : Intent) (c t : ℚ) (is_rt : Val),
      cfg.verifiable_threshold = .num t →
      (fvRule2 cfg intent (.num c) is_rt = Except.ok none ↔ ¬ c < t)) ∧
    (∀ (cfg : UncConfig) (c t : ℚ) (src : Val),
      cfg.confidence_threshold = .num t →
      (uncRule1 cfg (.num c) src = Except.ok none ↔ ¬ c < t)) ∧
    (∀ cov ct : ℚ,
      (uncRule5 (.num cov) (.num ct) = Except.ok none ↔ ¬ cov < ct)) :=
  ⟨fun cfg intent c t is_rt ht => fvRule2_eq_none_iff cfg intent c t is_rt ht,
   fun cfg c t src ht => uncRule1_eq_none_iff cfg c t src ht,
   fun cov ct => uncRule5_eq_none_iff cov ct⟩

/-- Witness for C6: values exactly at the default thresholds pass every
threshold rule. -/
theorem threshold_equality_passes_witness :
    fvRule2 {} intent0 (.num (7/10)) (.bool false) = Except.ok none ∧
    uncRule1 {} (.num (3/5)) (.str "unknown") = Except.ok none ∧
    uncRule5 (.num (4/5)) (.num (4/5)) = Except.ok none :=
  ⟨(threshold_equality_passes.1 {} intent0 (7/10) (7/10) (.bool false) rfl).mpr
      (lt_irrefl _),
   (threshold_equality_passes.2.1 {} (3/5) (3/5) (.str "unknown") rfl).mpr (lt_irrefl _),
   (threshold_equality_passes.2.2 (4/5) (4/5)).mpr (lt_irrefl _)⟩

/-- C10: with verifiable facts, confidence at/above threshold, an
unknown/untrusted/user-provided source and no realtime dependency,
`FactVerifiabilityGate.evaluate` returns the source annotation (no override)
for every freshness value — the untrusted-source rule returns immediately, so
the stale-freshness RESTRICT rule is reachable only when the source lies
outside that set (the rule falls through exactly on sources outside it). -/
theorem untrusted_source_annotation_shadows_stale_rule :
    (∀ (cfg : FVConfig) (intent : Intent) (evidence : Evidence) (c t : ℚ) (srcName : String),
      evidence.get "facts.verifiable" (.bool true) ≠ .bool false →
      evidence.get "facts.verifiable_confidence" (.num 1) = .num c →
      cfg.verifiable_threshold = .num t → ¬ c < t →
      evidence.get "facts.source" (.str "unknown") = .str srcName →
      (srcName = "unknown" ∨ srcName = "untrusted" ∨ srcName = "user_provided") →
      (evidence.get "facts.requires_realtime"
        (.bool (cfg.require_realtime_facts.contains (.str intent.name)))).truthy = false →
      fvEvaluate cfg intent evidence
        = Except.ok (none, "Fact source is '" ++ srcName ++ "' - consider verification")) ∧
    (∀ (intent : Intent) (src is_rt : Val),
      fvRule3 intent src is_rt = none
        ↔ ¬ (src = .str "unknown" ∨ src = .str "untrusted" ∨ src = .str "user_provided")) := by
  constructor
  · intro cfg intent evidence c t srcName hv hc ht hlt hs hmem hrt
    have h1 := fvRule1_none cfg intent (evidence.get "facts.verifiable" (.bool true))
      (evidence.get "facts.requires_realtime"
        (.bool (cfg.require_realtime_facts.contains (.str intent.name))))
      (evidence.get "facts.source" (.str "unknown"))
      (evidence.get "facts.freshness" (.str "unknown"))
      (evidence.get "facts.verifiable_confidence" (.num 1)) hv
    have h2 : fvRule2 cfg intent (evidence.get "facts.verifiable_confidence" (.num 1))
        (evidence.get "facts.requires_realtime"
          (.bool (cfg.require_realtime_facts.contains (.str intent.name)))) = Except.ok none := by
      rw [hc]
      exact (fvRule2_eq_none_iff cfg intent c t _ ht).mpr hlt
    have hmem' : (evidence.get "facts.source" (.str "unknown") = Val.str "unknown" ∨
        evidence.get "facts.source" (.str "unknown") = Val.str "untrusted" ∨
        evidence.get "facts.source" (.str "unknown") = Val.str "user_provided") := by
      rw [hs]
      rcases hmem with h | h | h <;> rw [h] <;> simp
    have h3 : fvRule3 intent (evidence.get "facts.source" (.str "unknown"))
        (evidence.get "facts.requires_realtime"
          (.bool (cfg.require_realtime_facts.contains (.str intent.name))))
        = some (none, "Fact source is '" ++ srcName ++ "' - consider verification") := by
      unfold fvRule3
      rw [if_pos hmem', if_neg (by rw [hrt]; simp), hs]
      simp [Val.pyStr]
    simp only [fvEvaluate, h1, h2, h3, Bind.bind, Except.bind, Pure.pure, Except.pure]
  · intro intent src is_rt
    unfold fvRule3
    by_cases hm : (src = Val.str "unknown" ∨ src = Val.str "untrusted" ∨
        src = Val.str "user_provided")
    · rw [if_pos hm]
      constructor
      · intro h; split at h <;> cases h
      · intro h; exact absurd hm h
    · rw [if_neg hm]
      simp [hm]

def evidenceUntrustedStale : Evidence :=
  { facts := [("source", .str "user_provided"), ("freshness", .str "stale")] }

/-- Witness for C10: a user-provided source with stale freshness yields the
annotation, not the stale-freshness RESTRICT. -/
theorem untrusted_source_annotation_shadows_stale_rule_witness :
    fvEvaluate {} intent0 evidenceUntrustedStale
      = Except.ok (none, "Fact source is 'user_provided' - consider verification") := by
  have h := untrusted_source_annotation_shadows_stale_rule.1 {} intent0 evidenceUntrustedStale
    1 (7/10) "user_provided" (by decide) (by decide) rfl (by norm_num) (by decide)
    (Or.inr (Or.inr rfl)) (by decide)
  exact h.trans (by rfl)

/-- C9: the harm-risk fallback of `SafetyGate` fires only on the boolean value
`True`: when no keyword matches and `topic.harm_risk` is any other value
(truthy non-booleans like `1` included), evaluation falls through to the
sensitive-topic rule / no-override annotation tail. -/
theorem harm_risk_requires_exact_true (cfg : SafetyConfig) (intent : Intent)
    (evidence : Evidence) (ui : String)
    (hui : safetyUserInput intent = Except.ok ui)
    (hkw : ∀ kw ∈ cfg.fraud_keywords ++ cfg.illegal_keywords ++ cfg.security_keywords,
      strContains ui kw = false)
    (hh : evidence.get "topic.harm_risk" (.bool false) ≠ .bool true) :
    safetyEvaluate cfg intent evidence = Except.ok (safetyTail cfg intent evidence) := by
  have hf : safetyKeywordHit cfg.fraud_keywords ui = none := by
    refine List.find?_eq_none.mpr (fun kw hm => ?_)
    simp [hkw kw (List.mem_append_left _ (List.mem_append_left _ hm))]
  have hi : safetyKeywordHit cfg.illegal_keywords ui = none := by
    refine List.find?_eq_none.mpr (fun kw hm => ?_)
    simp [hkw kw (List.mem_append_left _ (List.mem_append_right _ hm))]
  have hs : safetyKeywordHit cfg.security_keywords ui = none := by
    refine List.find?_eq_none.mpr (fun kw hm => ?_)
    simp [hkw kw (List.mem_append_right _ hm)]
  simp only [safetyEvaluate, hui, hf, hi, hs, if_neg hh, Bind.bind, Except.bind,
    Pure.pure, Except.pure]

def intentHello : Intent := { name := "greet", parameters := [("user_input", .str "Hello")] }

def evidenceHarmOne : Evidence := { topic := [("harm_risk", .num 1)] }

/-- Witness for C9: `harm_risk = 1` (truthy, but not the boolean `True`) with a
benign user input falls through to the no-override annotation. -/
theorem harm_risk_requires_exact_true_witness :
    safetyEvaluate {} intentHello evidenceHarmOne
      = Except.ok (none, "No safety risks detected for intent 'greet'") := by
  have h := harm_risk_requires_exact_true {} intentHello evidenceHarmOne "hello"
    (by rfl) (by decide) (by decide)
  exact h.trans (by rfl)

/-- C8 (amended): a key present in the gate's policy override map replaces the
field used for that evaluation; a key absent from every consulted override map
leaves the constructor default in place across any sequence of evaluations.
(After an evaluation whose policy supplied the key, a later evaluation whose
policy omits it reuses the overridden value, not the constructor default —
see the counterexample.) -/
theorem gate_policy_override_semantics :
    (∀ (cfg cfg' : FVConfig) (pc : List (String × Val)) (v : Val),
      pc ≠ [] → Val.alookup pc "verifiable_threshold" = some v →
      fvApplyPolicy cfg (.dict pc) = Except.ok cfg' →
      cfg'.verifiable_threshold = v) ∧
    (∀ (cfg cfg' : FVConfig) (pcs : List Val),
      fvApplyPolicies cfg pcs = Except.ok cfg' →
      (∀ pc ∈ pcs, ∀ es, pc = .dict es → Val.alookup es "verifiable_threshold" = none) →
      cfg'.verifiable_threshold = cfg.verifiable_threshold) := by
  constructor
  · intro cfg cfg' pc v hne hv happ
    unfold fvApplyPolicy at happ
    rw [if_neg (by simp [Val.truthy, hne])] at happ
    rcases hl : Val.alookup pc "require_realtime_facts" with _ | w
    · simp [hl, Bind.bind, Except.bind, Pure.pure, Except.pure] at happ
      rw [← happ]
      simp [hv]
    · cases w <;> simp [hl, Bind.bind, Except.bind, Pure.pure, Except.pure] at happ <;>
        (rw [← happ]; simp [hv])
  · intro cfg cfg' pcs
    induction pcs generalizing cfg with
    | nil =>
      intro h _
      simp [fvApplyPolicies, Pure.pure, Except.pure] at h
      rw [← h]
    | cons pc rest ih =>
      intro h hkeys
      rw [fvApplyPolicies] at h
      rcases hstep : fvApplyPolicy cfg pc with e | c1
      · simp [hstep, Bind.bind, Except.bind] at h
      · simp only [hstep, Bind.bind, Except.bind] at h
        have hrec := ih c1 h (fun x hx es he => hkeys x (List.mem_cons_of_mem _ hx) es he)
        rw [hrec]
        unfold fvApplyPolicy at hstep
        by_cases htr : pc.truthy = false
        · rw [if_pos htr] at hstep
          simp [Pure.pure, Except.pure] at hstep
          rw [← hstep]
        · rw [if_neg htr] at hstep
          cases pc with
          | dict es =>
            have hkey := hkeys (.dict es) (List.mem_cons_self _ _) es rfl
            rcases hl : Val.alookup es "require_realtime_facts" with _ | w
            · simp [hl, Bind.bind, Except.bind, Pure.pure, Except.pure] at hstep
              rw [← hstep]
              simp [hkey]
            · cases w <;>
                simp [hl, Bind.bind, Except.bind, Pure.pure, Except.pure] at hstep <;>
                (rw [← hstep]; simp [hkey])
          | null => simp at hstep
          | bool b => simp at hstep
          | num q => simp at hstep
          | str s => simp at hstep
          | list xs => simp at hstep

/-- Witness for the amended C8: a supplied threshold is used, and folding
override maps that never supply the key keeps the constructor default. -/
theorem gate_policy_override_semantics_witness :
    fvApplyPolicy {} (.dict [("verifiable_threshold", .num 2)])
      = Except.ok { require_realtime_facts := [], verifiable_threshold := .num 2,
                    stop_on_unverifiable := .bool false } ∧
    ({ require_realtime_facts := [], verifiable_threshold := .num 2,
       stop_on_unverifiable := .bool false } : FVConfig).verifiable_threshold = .num 2 ∧
    (∀ cfg' : FVConfig,
      fvApplyPolicies {} [.dict [("stop_on_unverifiable", .bool true)]] = Except.ok cfg' →
      cfg'.verifiable_threshold = ({} : FVConfig).verifiable_threshold) := by
  refine ⟨rfl, ?_, ?_⟩
  · exact gate_policy_override_semantics.1 {} _ [("verifiable_threshold", .num 2)] (.num 2)
      (by simp) rfl rfl
  · intro cfg' h
    exact gate_policy_override_semantics.2 {} cfg' [.dict [("stop_on_unverifiable", .bool true)]]
      h (by intro pc hpc es he; simp at hpc; rw [hpc] at he; injection he with he'; rw [← he']; rfl)

def fvPolicy1 : PolicyEvaluator :=
  ⟨[("name", .str "policy-one"), ("version", .str "1.0"),
    ("gates", .dict [("fact_verifiability", .dict [("verifiable_threshold", .num 2)])])]⟩

def fvPolicy2 : PolicyEvaluator :=
  ⟨[("name", .str "policy-two"), ("version", .str "1.0"),
    ("gates", .dict [("fact_verifiability", .dict [("stop_on_unverifiable", .bool false)])])]⟩

/-- C8 counterexample: evaluate once under a policy that overrides
`verifiable_threshold`, then again (same gate instance, i.e. the mutated
configuration) under a policy whose override map lacks that key: the second
evaluation uses the previously overridden value, not the constructor
default. -/
theorem gate_policy_override_persistence_counterexample :
    (fvEvaluateWithPolicy {} intent0 evidence0 (some fvPolicy1)).map
        (fun r => r.2.verifiable_threshold) = Except.ok (.num 2) ∧
    ((fvEvaluateWithPolicy {} intent0 evidence0 (some fvPolicy1)).bind
        (fun r => fvEvaluateWithPolicy r.2 intent0 evidence0 (some fvPolicy2))).map
        (fun r => r.2.verifiable_threshold) = Except.ok (.num 2) ∧
    ({} : FVConfig).verifiable_threshold = .num (7/10) ∧
    Val.num 2 ≠ Val.num (7/10) := by
  refine ⟨rfl, rfl, rfl, ?_⟩
  intro h
  injection h with h2
  norm_num at h2
